import Mathlib

/-!
Verification of the schedule-driven coinjoin orchestrator front-end
(`scripts/sendpayment.py`).

The script's `main` is embedded as a function from an `Env` (the external
collaborators it consults: address validator, schedule-file loader, fee
estimator, blockchain-interface kind), the parsed `Options` and the raw
positional `args` to a trace of observable effects together with the run
configuration it hands to the Taker, when a run is actually started.
The per-transaction completion callback `taker_finished` is embedded as a
function from its closed-over `fastsync` flag and its two parameters to the
list of effects it performs.
-/

namespace SendPayment

/-- A schedule entry, the tuple `(mixdepth, amount, N, destination)` of the
script's schedule lists. -/
structure ScheduleEntry where
  mixdepth : Int
  amount : Int
  makercount : Int
  destaddr : String
deriving DecidableEq, Repr

/-- The option values produced by the script's `OptionParser` (lines 65-171).
`waittime` is a float never read by the modelled logic and is omitted. -/
structure Options where
  txfee : Int
  makercount : Int
  daemonport : Int
  schedule : String
  choosecheapest : Bool
  pickorders : Bool
  mixdepth : Int
  amtmixdepths : Int
  gaplimit : Int
  answeryes : Bool
  userpcwallet : Bool
  fastsync : Bool
deriving DecidableEq, Repr

/-- Which wallet object `main` constructs (lines 232-236). -/
inductive WalletKind where
  | jm (name : String) (maxMixDepth : Int) (gaplimit : Int)
  | rpc (fromaccount : String)
deriving DecidableEq, Repr

/-- The three order-selection policies that can be bound to
`chooseOrdersFunc` (lines 210-219). -/
inductive OrderPolicy where
  | manual
  | cheapest
  | weighted
deriving DecidableEq, Repr

/-- Observable effects of `main` and of the `taker_finished` callback, in
program order. -/
inductive Effect where
  | loadConfig
  | parserError
  | crash
  | validateAddr (addr : String)
  | printAddressError
  | getScheduleFile (fn : String)
  | logInfo
  | sysExit
  | printWarning
  | estimateFee (ins outs : Nat)
  | logDebug
  | assertFail
  | constructWallet (name : String) (maxMixDepth : Int) (gaplimit : Int)
  | constructRpcWallet (fromaccount : String)
  | syncWallet (fast : Bool)
  | setTickInterval
  | startReactor (port : Int)
  | clientStart
  | reactorStop
deriving DecidableEq, Repr

/-- The external collaborators `main` consults, out of scope of the script
itself: `int()` parsing of the amount argument, `validate_address`,
`get_schedule` (`none` models a failed load), `estimate_tx_fee`, and whether
`jm_single().bc_interface` is a `RegtestBitcoinCoreInterface`. -/
structure Env where
  parseInt : String → Option Int
  validateAddress : String → Bool × String
  getSchedule : String → Option (List ScheduleEntry)
  estimateTxFee : Nat → Nat → Int
  isRegtest : Bool

/-- The configuration `main` has assembled by the time it constructs the
`Taker` and starts the reactor (lines 257-263). -/
structure RunConfig where
  schedule : List ScheduleEntry
  sweeping : Bool
  mixdepth : Int
  walletName : String
  policy : OrderPolicy
  txfee : Int
  wallet : WalletKind
deriving DecidableEq, Repr

/-- Lines 210-219: `chooseOrdersFunc` is `pick_order` when `--pick-orders`
is set, else `cheapest_order_choose` when `--choose-cheapest` is set, else
`weighted_order_choose`. -/
def choose_orders_policy (pickorders choosecheapest : Bool) : OrderPolicy :=
  if pickorders then OrderPolicy.manual
  else if choosecheapest then OrderPolicy.cheapest
  else OrderPolicy.weighted

/-- Lines 224-227: when `options.txfee` is the sentinel `-1` it is replaced
by `max(options.txfee, estimate_tx_fee(2, 2))`; otherwise it is left
unchanged. The boolean records whether the estimator was invoked. -/
def determine_txfee (txfee est : Int) : Int × Bool :=
  if txfee = -1 then (max txfee est, true) else (txfee, false)

/-- Lines 205-263 of `main`, from `wallet_name = args[0]` to
`start_reactor`: policy choice with the sweep warning, fee determination and
the `assert options.txfee >= 0`, wallet construction, initial `sync_wallet`,
the regtest tick interval, and starting the reactor. Returns the effect
trace and, unless the assert fails, the assembled run configuration. -/
def mainAfterSchedule (env : Env) (opts : Options) (walletName : String)
    (sweeping : Bool) (mixdepth : Int) (schedule : List ScheduleEntry) :
    List Effect × Option RunConfig :=
  let policy := choose_orders_policy opts.pickorders opts.choosecheapest
  let warnEffs : List Effect :=
    if opts.pickorders && sweeping then [Effect.printWarning, Effect.printWarning] else []
  let fee := determine_txfee opts.txfee (env.estimateTxFee 2 2)
  let feeEffs : List Effect :=
    if fee.2 then [Effect.estimateFee 2 2, Effect.logDebug] else []
  if fee.1 < 0 then
    (warnEffs ++ feeEffs ++ [Effect.assertFail], none)
  else
    let wallet : WalletKind :=
      if !opts.userpcwallet then
        WalletKind.jm walletName (max mixdepth opts.amtmixdepths) opts.gaplimit
      else WalletKind.rpc walletName
    let wEff : Effect :=
      if !opts.userpcwallet then
        Effect.constructWallet walletName (max mixdepth opts.amtmixdepths) opts.gaplimit
      else Effect.constructRpcWallet walletName
    let tickEffs : List Effect := if env.isRegtest then [Effect.setTickInterval] else []
    (warnEffs ++ feeEffs ++
       [Effect.logDebug, wEff, Effect.syncWallet opts.fastsync] ++ tickEffs ++
       [Effect.startReactor opts.daemonport],
     some { schedule := schedule, sweeping := sweeping, mixdepth := mixdepth,
            walletName := walletName, policy := policy, txfee := fee.1,
            wallet := wallet })

/-- The body of `main` (lines 171-263). Mirrors the source control flow:
the missing-arguments check, then either the single-entry construction path
(amount parse, sweep flag, address validation, one-entry schedule) or the
schedule-file path (`get_schedule` failure exits; otherwise the loop deriving
the sweep flag and the maximum mixdepth), then `mainAfterSchedule`. -/
def mainRun (env : Env) (opts : Options) (args : List String) :
    List Effect × Option RunConfig :=
  if opts.schedule = "" ∧ args.length < 3 then
    ([Effect.loadConfig, Effect.parserError], none)
  else if opts.schedule = "" then
    match env.parseInt (args.getD 1 "") with
    | none => ([Effect.loadConfig, Effect.crash], none)
    | some amount =>
      let sweeping := amount == 0
      let destaddr := args.getD 2 ""
      if !(env.validateAddress destaddr).1 then
        ([Effect.loadConfig, Effect.validateAddr destaddr, Effect.printAddressError], none)
      else
        let schedule := [ScheduleEntry.mk opts.mixdepth amount opts.makercount destaddr]
        let r := mainAfterSchedule env opts (args.getD 0 "") sweeping opts.mixdepth schedule
        (Effect.loadConfig :: Effect.validateAddr destaddr :: r.1, r.2)
  else
    match env.getSchedule opts.schedule with
    | none =>
      ([Effect.loadConfig, Effect.getScheduleFile opts.schedule,
        Effect.logInfo, Effect.logInfo, Effect.sysExit], none)
    | some schedule =>
      let sweeping := schedule.foldl (fun b s => if s.amount == 0 then true else b) false
      let mixdepth := schedule.foldl (fun m s => max m s.mixdepth) 0
      let r := mainAfterSchedule env opts (args.getD 0 "") sweeping mixdepth schedule
      (Effect.loadConfig :: Effect.getScheduleFile opts.schedule :: r.1, r.2)

/-- The `taker_finished` callback (lines 239-252), closed over the wallet and
`options.fastsync`: on a from-transaction success it resyncs the wallet and
starts the next round via `clientStart`; on a from-transaction failure it
stops the reactor; on a final signal it logs and stops the reactor. -/
def taker_finished (fastsync res fromtx : Bool) : List Effect :=
  if fromtx then
    if res then [Effect.syncWallet fastsync, Effect.clientStart]
    else [Effect.reactorStop]
  else [Effect.logInfo, Effect.reactorStop]

/-- Recognises a wallet-sync effect. -/
def isSync : Effect → Bool
  | Effect.syncWallet _ => true
  | _ => false

/-- Recognises wallet construction, wallet sync, and network-round effects. -/
def isWalletOrNetworkOp : Effect → Bool
  | Effect.constructWallet _ _ _ => true
  | Effect.constructRpcWallet _ => true
  | Effect.syncWallet _ => true
  | Effect.startReactor _ => true
  | Effect.clientStart => true
  | _ => false

theorem determine_txfee_snd (t e : Int) :
    (determine_txfee t e).2 = true ↔ t = -1 := by
  unfold determine_txfee
  split <;> simp_all

theorem determine_txfee_fst_of_sentinel {t e : Int} (ht : t = -1) (he : 0 ≤ e) :
    (determine_txfee t e).1 = e := by
  subst ht
  show (if (-1 : Int) = -1 then (max (-1) e, true) else ((-1 : Int), false)).1 = e
  rw [if_pos rfl]
  exact max_eq_right (by omega)

theorem determine_txfee_fst_of_explicit {t : Int} (e : Int) (ht : t ≠ -1) :
    (determine_txfee t e).1 = t := by
  simp [determine_txfee, ht]

theorem mainAfterSchedule_some_eq {env : Env} {opts : Options} {w : String}
    {sw : Bool} {m : Int} {sch : List ScheduleEntry} {cfg : RunConfig}
    (h : (mainAfterSchedule env opts w sw m sch).2 = some cfg) :
    cfg = { schedule := sch, sweeping := sw, mixdepth := m, walletName := w,
            policy := choose_orders_policy opts.pickorders opts.choosecheapest,
            txfee := (determine_txfee opts.txfee (env.estimateTxFee 2 2)).1,
            wallet := if !opts.userpcwallet then
                WalletKind.jm w (max m opts.amtmixdepths) opts.gaplimit
              else WalletKind.rpc w } := by
  simp only [mainAfterSchedule] at h
  split at h
  · simp at h
  · simp only [Option.some.injEq] at h
    exact h.symm

theorem countP_isSync_warnEffs (c : Bool) :
    ((if c then [Effect.printWarning, Effect.printWarning] else []).countP isSync) = 0 := by
  cases c <;> rfl

theorem countP_isSync_feeEffs (c : Bool) :
    ((if c then [Effect.estimateFee 2 2, Effect.logDebug] else []).countP isSync) = 0 := by
  cases c <;> rfl

theorem countP_isSync_tickEffs (c : Bool) :
    ((if c then [Effect.setTickInterval] else []).countP isSync) = 0 := by
  cases c <;> rfl

theorem isSync_wEff (c : Bool) (w : String) (m g : Int) :
    isSync (if c then Effect.constructWallet w m g else Effect.constructRpcWallet w) = false := by
  cases c <;> rfl

theorem mainAfterSchedule_trace {env : Env} {opts : Options} {w : String}
    {sw : Bool} {m : Int} {sch : List ScheduleEntry} {cfg : RunConfig}
    (h : (mainAfterSchedule env opts w sw m sch).2 = some cfg) :
    ∃ p, (mainAfterSchedule env opts w sw m sch).1 =
        p ++ [Effect.startReactor opts.daemonport] ∧
      Effect.syncWallet opts.fastsync ∈ p ∧ p.countP isSync = 1 := by
  simp only [mainAfterSchedule] at h ⊢
  by_cases hlt : (determine_txfee opts.txfee (env.estimateTxFee 2 2)).1 < 0
  · rw [if_pos hlt] at h
    simp at h
  · rw [if_neg hlt]
    refine ⟨_, rfl, ?_, ?_⟩
    · simp
    · simp only [List.countP_append, countP_isSync_warnEffs, countP_isSync_feeEffs,
        countP_isSync_tickEffs, List.countP_cons, List.countP_nil]
      cases opts.userpcwallet <;> simp [isSync]

theorem mainAfterSchedule_none_iff {env : Env} {opts : Options} {w : String}
    {sw : Bool} {m : Int} {sch : List ScheduleEntry} :
    (mainAfterSchedule env opts w sw m sch).2 = none ↔
      (determine_txfee opts.txfee (env.estimateTxFee 2 2)).1 < 0 := by
  simp only [mainAfterSchedule]
  split <;> simp_all

theorem mainRun_schedule_path {env : Env} {opts : Options} {args : List String}
    {sch : List ScheduleEntry}
    (hs : opts.schedule ≠ "") (h : env.getSchedule opts.schedule = some sch) :
    mainRun env opts args =
      ((Effect.loadConfig :: Effect.getScheduleFile opts.schedule ::
          (mainAfterSchedule env opts (args.getD 0 "")
            (sch.foldl (fun b s => if s.amount == 0 then true else b) false)
            (sch.foldl (fun m s => max m s.mixdepth) 0) sch).1),
       (mainAfterSchedule env opts (args.getD 0 "")
          (sch.foldl (fun b s => if s.amount == 0 then true else b) false)
          (sch.foldl (fun m s => max m s.mixdepth) 0) sch).2) := by
  simp [mainRun, hs, h]

theorem mainRun_schedule_fail {env : Env} {opts : Options} {args : List String}
    (hs : opts.schedule ≠ "") (h : env.getSchedule opts.schedule = none) :
    mainRun env opts args =
      ([Effect.loadConfig, Effect.getScheduleFile opts.schedule,
        Effect.logInfo, Effect.logInfo, Effect.sysExit], none) := by
  simp [mainRun, hs, h]

theorem mainRun_single_path {env : Env} {opts : Options} {args : List String}
    {amount : Int}
    (h1 : opts.schedule = "") (h2 : 3 ≤ args.length)
    (h3 : env.parseInt (args.getD 1 "") = some amount)
    (h4 : (env.validateAddress (args.getD 2 "")).1 = true) :
    mainRun env opts args =
      ((Effect.loadConfig :: Effect.validateAddr (args.getD 2 "") ::
          (mainAfterSchedule env opts (args.getD 0 "") (amount == 0) opts.mixdepth
            [ScheduleEntry.mk opts.mixdepth amount opts.makercount (args.getD 2 "")]).1),
       (mainAfterSchedule env opts (args.getD 0 "") (amount == 0) opts.mixdepth
          [ScheduleEntry.mk opts.mixdepth amount opts.makercount (args.getD 2 "")]).2) := by
  have h2' : ¬ args.length < 3 := by omega
  have h3' := h3
  have h4' := h4
  simp only [List.getD_eq_getElem?_getD] at h3' h4'
  simp [mainRun, h1, h2', h3', h4']

theorem mainRun_single_bad_address {env : Env} {opts : Options} {args : List String}
    {amount : Int}
    (h1 : opts.schedule = "") (h2 : 3 ≤ args.length)
    (h3 : env.parseInt (args.getD 1 "") = some amount)
    (h4 : (env.validateAddress (args.getD 2 "")).1 = false) :
    mainRun env opts args =
      ([Effect.loadConfig, Effect.validateAddr (args.getD 2 ""),
        Effect.printAddressError], none) := by
  have h2' : ¬ args.length < 3 := by omega
  have h3' := h3
  have h4' := h4
  simp only [List.getD_eq_getElem?_getD] at h3' h4'
  simp [mainRun, h1, h2', h3', h4']

theorem mainRun_missing_args {env : Env} {opts : Options} {args : List String}
    (h1 : opts.schedule = "") (h2 : args.length < 3) :
    mainRun env opts args = ([Effect.loadConfig, Effect.parserError], none) := by
  simp [mainRun, h1, h2]

theorem mainRun_single_parse_fail {env : Env} {opts : Options} {args : List String}
    (h1 : opts.schedule = "") (h2 : 3 ≤ args.length)
    (h3 : env.parseInt (args.getD 1 "") = none) :
    mainRun env opts args = ([Effect.loadConfig, Effect.crash], none) := by
  have h2' : ¬ args.length < 3 := by omega
  have h3' := h3
  simp only [List.getD_eq_getElem?_getD] at h3'
  simp [mainRun, h1, h2', h3']

theorem mainAfterSchedule_some_of_ok {env : Env} {opts : Options} {w : String}
    {sw : Bool} {m : Int} {sch : List ScheduleEntry}
    (hfee : ¬ (determine_txfee opts.txfee (env.estimateTxFee 2 2)).1 < 0) :
    (mainAfterSchedule env opts w sw m sch).2 =
      some { schedule := sch, sweeping := sw, mixdepth := m, walletName := w,
             policy := choose_orders_policy opts.pickorders opts.choosecheapest,
             txfee := (determine_txfee opts.txfee (env.estimateTxFee 2 2)).1,
             wallet := if !opts.userpcwallet then
                 WalletKind.jm w (max m opts.amtmixdepths) opts.gaplimit
               else WalletKind.rpc w } := by
  simp only [mainAfterSchedule]
  rw [if_neg hfee]

theorem assertFail_not_mem_of_ok {env : Env} {opts : Options} {w : String}
    {sw : Bool} {m : Int} {sch : List ScheduleEntry}
    (hfee : ¬ (determine_txfee opts.txfee (env.estimateTxFee 2 2)).1 < 0) :
    Effect.assertFail ∉ (mainAfterSchedule env opts w sw m sch).1 := by
  simp only [mainAfterSchedule]
  rw [if_neg hfee]
  cases hpw : (opts.pickorders && sw) <;>
    cases hfe : (determine_txfee opts.txfee (env.estimateTxFee 2 2)).2 <;>
      cases hrt : env.isRegtest <;>
        cases hu : opts.userpcwallet <;>
          simp [hpw, hfe, hrt, hu]

theorem assertFail_mem_of_bad {env : Env} {opts : Options} {w : String}
    {sw : Bool} {m : Int} {sch : List ScheduleEntry}
    (hfee : (determine_txfee opts.txfee (env.estimateTxFee 2 2)).1 < 0) :
    Effect.assertFail ∈ (mainAfterSchedule env opts w sw m sch).1 := by
  simp only [mainAfterSchedule]
  rw [if_pos hfee]
  simp

theorem estimateFee_mem_iff {env : Env} {opts : Options} {w : String}
    {sw : Bool} {m : Int} {sch : List ScheduleEntry} :
    Effect.estimateFee 2 2 ∈ (mainAfterSchedule env opts w sw m sch).1 ↔
      opts.txfee = -1 := by
  rw [← determine_txfee_snd opts.txfee (env.estimateTxFee 2 2)]
  simp only [mainAfterSchedule]
  by_cases hlt : (determine_txfee opts.txfee (env.estimateTxFee 2 2)).1 < 0
  · rw [if_pos hlt]
    cases hpw : (opts.pickorders && sw) <;>
      cases hfe : (determine_txfee opts.txfee (env.estimateTxFee 2 2)).2 <;>
        simp [hpw, hfe]
  · rw [if_neg hlt]
    cases hpw : (opts.pickorders && sw) <;>
      cases hfe : (determine_txfee opts.txfee (env.estimateTxFee 2 2)).2 <;>
        cases hrt : env.isRegtest <;>
          cases hu : opts.userpcwallet <;>
            simp [hpw, hfe, hrt, hu]

theorem printWarning_mem {env : Env} {opts : Options} {w : String}
    {sw : Bool} {m : Int} {sch : List ScheduleEntry}
    (hp : opts.pickorders = true) (hsw : sw = true) :
    Effect.printWarning ∈ (mainAfterSchedule env opts w sw m sch).1 := by
  simp only [mainAfterSchedule]
  by_cases hlt : (determine_txfee opts.txfee (env.estimateTxFee 2 2)).1 < 0
  · rw [if_pos hlt]
    simp [hp, hsw]
  · rw [if_neg hlt]
    simp [hp, hsw]

theorem getLast?_cons_cons_append (x y : Effect) (p : List Effect) (a : Effect) :
    (x :: y :: (p ++ [a])).getLast? = some a := by
  have hxy : x :: y :: (p ++ [a]) = (x :: y :: p) ++ [a] := by simp
  rw [hxy, List.getLast?_append_cons]
  rfl

theorem foldl_sweep_eq_any (l : List ScheduleEntry) (b : Bool) :
    l.foldl (fun b s => if s.amount == 0 then true else b) b =
      (b || l.any (fun s => s.amount == 0)) := by
  induction l generalizing b with
  | nil => simp
  | cons x xs ih =>
    simp only [List.foldl_cons, List.any_cons]
    rw [ih]
    cases hx : (x.amount == 0) <;> simp [hx]

theorem le_foldl_max (l : List ScheduleEntry) (a : Int) :
    a ≤ l.foldl (fun m s => max m s.mixdepth) a := by
  induction l generalizing a with
  | nil => simp
  | cons x xs ih => exact le_trans (le_max_left _ _) (ih (max a x.mixdepth))

theorem foldl_max_le_mem (l : List ScheduleEntry) (a : Int) :
    ∀ s ∈ l, s.mixdepth ≤ l.foldl (fun m s => max m s.mixdepth) a := by
  induction l generalizing a with
  | nil => simp
  | cons x xs ih =>
    intro s hs
    rcases List.mem_cons.1 hs with rfl | hs'
    · exact le_trans (le_max_right a s.mixdepth) (le_foldl_max xs (max a s.mixdepth))
    · exact ih (max a x.mixdepth) s hs'

theorem foldl_max_attained (l : List ScheduleEntry) (a : Int) :
    l.foldl (fun m s => max m s.mixdepth) a = a ∨
      ∃ s ∈ l, l.foldl (fun m s => max m s.mixdepth) a = s.mixdepth := by
  induction l generalizing a with
  | nil => exact Or.inl rfl
  | cons x xs ih =>
    rcases ih (max a x.mixdepth) with h | ⟨s, hs, h⟩
    · rcases le_total a x.mixdepth with hax | hax
      · exact Or.inr ⟨x, List.mem_cons_self x xs, by
          simp only [List.foldl_cons]
          rw [h, max_eq_right hax]⟩
      · exact Or.inl (by
          simp only [List.foldl_cons]
          rw [h, max_eq_left hax])
    · exact Or.inr ⟨s, List.mem_cons_of_mem x hs, by
        simp only [List.foldl_cons]
        exact h⟩

/-- A concrete external environment for witnesses: every address validates,
the amount argument parses to 100000 satoshi, no schedule file exists, the
fee estimator returns 6000 satoshi. -/
def envSingleOk : Env :=
  { parseInt := fun _ => some 100000,
    validateAddress := fun _ => (true, ""),
    getSchedule := fun _ => none,
    estimateTxFee := fun _ _ => 6000,
    isRegtest := false }

/-- The script's default option values (lines 73-169), with the amount,
destination and wallet taken from the command line. -/
def optsBase : Options :=
  { txfee := -1, makercount := 4, daemonport := 27183, schedule := "",
    choosecheapest := false, pickorders := false, mixdepth := 0,
    amtmixdepths := 5, gaplimit := 6, answeryes := false,
    userpcwallet := false, fastsync := false }

/-- C1: when the per-transaction completion callback receives a
from-transaction failure signal (`fromtx` true, `res` false), it only stops
the reactor: the failed entry is not retried, no wallet resync is requested,
and no further round is started (no `clientStart`, no reactor start). -/
theorem C1_fromtx_failure_aborts (fastsync f : Bool) (p : Int) :
    taker_finished fastsync false true = [Effect.reactorStop] ∧
    Effect.syncWallet f ∉ taker_finished fastsync false true ∧
    Effect.clientStart ∉ taker_finished fastsync false true ∧
    Effect.startReactor p ∉ taker_finished fastsync false true := by
  refine ⟨rfl, ?_, ?_, ?_⟩ <;> simp [taker_finished]

/-- C3: the fee estimator is invoked if and only if the fee override is the
sentinel `-1`; in that case the per-participant fee becomes the estimate for
2 inputs and 2 outputs (the estimator being non-negative, per its contract);
any other explicit value is used unchanged and the estimator is not
invoked (no `estimate_tx_fee` call appears in the trace). -/
theorem C3_fee_estimator_sentinel (env : Env) (opts : Options) (w : String)
    (sw : Bool) (m : Int) (sch : List ScheduleEntry)
    (h : 0 ≤ env.estimateTxFee 2 2) :
    ((determine_txfee opts.txfee (env.estimateTxFee 2 2)).2 = true ↔
        opts.txfee = -1) ∧
    (opts.txfee = -1 →
      (determine_txfee opts.txfee (env.estimateTxFee 2 2)).1 =
        env.estimateTxFee 2 2) ∧
    (opts.txfee ≠ -1 →
      (determine_txfee opts.txfee (env.estimateTxFee 2 2)).1 = opts.txfee) ∧
    (Effect.estimateFee 2 2 ∈ (mainAfterSchedule env opts w sw m sch).1 ↔
        opts.txfee = -1) :=
  ⟨determine_txfee_snd _ _,
   fun ht => determine_txfee_fst_of_sentinel ht h,
   fun ht => determine_txfee_fst_of_explicit _ ht,
   estimateFee_mem_iff⟩

/-- Witness for C3 at the default options (`txfee = -1`) and the concrete
environment `envSingleOk`. -/
theorem C3_witness :
    (0 : Int) ≤ envSingleOk.estimateTxFee 2 2 ∧
    (((determine_txfee optsBase.txfee (envSingleOk.estimateTxFee 2 2)).2 = true ↔
        optsBase.txfee = -1) ∧
    (optsBase.txfee = -1 →
      (determine_txfee optsBase.txfee (envSingleOk.estimateTxFee 2 2)).1 =
        envSingleOk.estimateTxFee 2 2) ∧
    (optsBase.txfee ≠ -1 →
      (determine_txfee optsBase.txfee (envSingleOk.estimateTxFee 2 2)).1 =
        optsBase.txfee) ∧
    (Effect.estimateFee 2 2 ∈
        (mainAfterSchedule envSingleOk optsBase "w" false 0 []).1 ↔
        optsBase.txfee = -1)) :=
  ⟨by decide, C3_fee_estimator_sentinel envSingleOk optsBase "w" false 0 [] (by decide)⟩

/-- C7: when a schedule file is used and the load reports failure, the
program exits with no run configuration and its trace contains no wallet
construction, no wallet sync, and no network-round effect. -/
theorem C7_schedule_load_failure (env : Env) (opts : Options) (args : List String)
    (hs : opts.schedule ≠ "") (h : env.getSchedule opts.schedule = none) :
    (mainRun env opts args).2 = none ∧
    (mainRun env opts args).1 =
      [Effect.loadConfig, Effect.getScheduleFile opts.schedule,
       Effect.logInfo, Effect.logInfo, Effect.sysExit] ∧
    (mainRun env opts args).1.countP isWalletOrNetworkOp = 0 := by
  rw [mainRun_schedule_fail hs h]
  exact ⟨rfl, rfl, rfl⟩

/-- Witness for C7: a named schedule file whose load fails in `envSingleOk`. -/
theorem C7_witness :
    ({ optsBase with schedule := "sched.txt" } : Options).schedule ≠ "" ∧
    envSingleOk.getSchedule ({ optsBase with schedule := "sched.txt" } : Options).schedule = none ∧
    ((mainRun envSingleOk { optsBase with schedule := "sched.txt" } ["w"]).2 = none ∧
    (mainRun envSingleOk { optsBase with schedule := "sched.txt" } ["w"]).1 =
      [Effect.loadConfig, Effect.getScheduleFile ({ optsBase with schedule := "sched.txt" } : Options).schedule,
       Effect.logInfo, Effect.logInfo, Effect.sysExit] ∧
    (mainRun envSingleOk { optsBase with schedule := "sched.txt" } ["w"]).1.countP isWalletOrNetworkOp = 0) :=
  ⟨by decide, rfl,
   C7_schedule_load_failure envSingleOk { optsBase with schedule := "sched.txt" } ["w"]
     (by decide) rfl⟩

/-- A concrete environment whose address validation always fails. -/
def envBadAddr : Env :=
  { parseInt := fun _ => some 100000,
    validateAddress := fun _ => (false, "checksum"),
    getSchedule := fun _ => none,
    estimateTxFee := fun _ _ => 6000,
    isRegtest := false }

/-- C8: on the single-entry path, a destination address that fails
validation aborts the run before any schedule is constructed: no run
configuration is produced and the trace contains no wallet construction, no
wallet sync, and no network-round effect. -/
theorem C8_bad_address_aborts (env : Env) (opts : Options) (args : List String)
    (amount : Int)
    (h1 : opts.schedule = "") (h2 : 3 ≤ args.length)
    (h3 : env.parseInt (args.getD 1 "") = some amount)
    (h4 : (env.validateAddress (args.getD 2 "")).1 = false) :
    (mainRun env opts args).2 = none ∧
    (mainRun env opts args).1 =
      [Effect.loadConfig, Effect.validateAddr (args.getD 2 ""),
       Effect.printAddressError] ∧
    (mainRun env opts args).1.countP isWalletOrNetworkOp = 0 := by
  rw [mainRun_single_bad_address h1 h2 h3 h4]
  exact ⟨rfl, rfl, rfl⟩

/-- Witness for C8: the default options with an address the validator
rejects. -/
theorem C8_witness :
    optsBase.schedule = "" ∧
    3 ≤ (["w", "100000", "badaddr"] : List String).length ∧
    envBadAddr.parseInt ((["w", "100000", "badaddr"] : List String).getD 1 "") = some 100000 ∧
    (envBadAddr.validateAddress ((["w", "100000", "badaddr"] : List String).getD 2 "")).1 = false ∧
    ((mainRun envBadAddr optsBase ["w", "100000", "badaddr"]).2 = none ∧
    (mainRun envBadAddr optsBase ["w", "100000", "badaddr"]).1 =
      [Effect.loadConfig,
       Effect.validateAddr ((["w", "100000", "badaddr"] : List String).getD 2 ""),
       Effect.printAddressError] ∧
    (mainRun envBadAddr optsBase ["w", "100000", "badaddr"]).1.countP isWalletOrNetworkOp = 0) :=
  ⟨rfl, by decide, rfl, rfl,
   C8_bad_address_aborts envBadAddr optsBase ["w", "100000", "badaddr"] 100000
     rfl (by decide) rfl rfl⟩

/-- C9: exactly one order-selection policy is chosen at configuration time:
manual iff the pick-orders flag is set, cheapest-first iff that flag is
clear and choose-cheapest is set, weighted-random iff both are clear; the
started run's configuration carries that policy; and manual picking during
a sweep prints a warning but is not rejected (the run still starts). -/
theorem C9_policy_selection (env : Env) (opts : Options) (w : String)
    (sw : Bool) (m : Int) (sch : List ScheduleEntry) (cfg : RunConfig)
    (h : (mainAfterSchedule env opts w sw m sch).2 = some cfg) :
    cfg.policy = choose_orders_policy opts.pickorders opts.choosecheapest ∧
    (choose_orders_policy opts.pickorders opts.choosecheapest = OrderPolicy.manual ↔
        opts.pickorders = true) ∧
    (choose_orders_policy opts.pickorders opts.choosecheapest = OrderPolicy.cheapest ↔
        (opts.pickorders = false ∧ opts.choosecheapest = true)) ∧
    (choose_orders_policy opts.pickorders opts.choosecheapest = OrderPolicy.weighted ↔
        (opts.pickorders = false ∧ opts.choosecheapest = false)) ∧
    (opts.pickorders = true → sw = true →
      Effect.printWarning ∈ (mainAfterSchedule env opts w sw m sch).1) ∧
    ((mainAfterSchedule env opts w sw m sch).2 = none ↔
      (determine_txfee opts.txfee (env.estimateTxFee 2 2)).1 < 0) := by
  refine ⟨?_, ?_, ?_, ?_, fun hp hsw => printWarning_mem hp hsw,
    mainAfterSchedule_none_iff⟩
  · rw [mainAfterSchedule_some_eq h]
  all_goals
    cases hp : opts.pickorders <;> cases hc : opts.choosecheapest <;>
      simp [choose_orders_policy, hp, hc]

/-- Witness for C9: manual picking combined with a sweep, fee 1000, in
`envSingleOk`; the run still starts and the warning is in the trace. -/
theorem C9_witness :
    (mainAfterSchedule envSingleOk { optsBase with pickorders := true, txfee := 1000 }
        "w" true 0 []).2 =
      some { schedule := [], sweeping := true, mixdepth := 0, walletName := "w",
             policy := OrderPolicy.manual, txfee := 1000,
             wallet := WalletKind.jm "w" 5 6 } ∧
    (({ optsBase with pickorders := true, txfee := 1000 } : Options).pickorders = true → true = true →
      Effect.printWarning ∈
        (mainAfterSchedule envSingleOk { optsBase with pickorders := true, txfee := 1000 }
          "w" true 0 []).1) ∧
    ((mainAfterSchedule envSingleOk { optsBase with pickorders := true, txfee := 1000 }
        "w" true 0 []).2 = none ↔
      (determine_txfee ({ optsBase with pickorders := true, txfee := 1000 } : Options).txfee
        (envSingleOk.estimateTxFee 2 2)).1 < 0) := by
  have h : (mainAfterSchedule envSingleOk { optsBase with pickorders := true, txfee := 1000 }
      "w" true 0 []).2 =
      some { schedule := [], sweeping := true, mixdepth := 0, walletName := "w",
             policy := OrderPolicy.manual, txfee := 1000,
             wallet := WalletKind.jm "w" 5 6 } := by decide
  have hall := C9_policy_selection envSingleOk { optsBase with pickorders := true, txfee := 1000 }
    "w" true 0 [] _ h
  exact ⟨h, hall.2.2.2.2.1, hall.2.2.2.2.2⟩

/-- A concrete environment returning a two-entry schedule file whose second
entry is a sweep. -/
def envTwoEntry : Env :=
  { parseInt := fun _ => some 100000,
    validateAddress := fun _ => (true, ""),
    getSchedule := fun _ =>
      some [ScheduleEntry.mk 1 100000 4 "a", ScheduleEntry.mk 3 0 2 "b"],
    estimateTxFee := fun _ _ => 6000,
    isRegtest := false }

/-- The run configuration produced by `envSingleOk` at the default options
with arguments `["w", "100000", "addr"]`. -/
def cfgSingleOk : RunConfig :=
  { schedule := [ScheduleEntry.mk 0 100000 4 "addr"], sweeping := false,
    mixdepth := 0, walletName := "w", policy := OrderPolicy.weighted,
    txfee := 6000, wallet := WalletKind.jm "w" 5 6 }

/-- The run configuration produced by the two-entry schedule of
`envTwoEntry`. -/
def cfgTwoEntry : RunConfig :=
  { schedule := [ScheduleEntry.mk 1 100000 4 "a", ScheduleEntry.mk 3 0 2 "b"],
    sweeping := true, mixdepth := 3, walletName := "w",
    policy := OrderPolicy.weighted, txfee := 6000,
    wallet := WalletKind.jm "w" 5 6 }

/-- C2: whenever a run actually starts (a configuration reaches the Taker
and the reactor is started), the trace of `main` contains exactly one wallet
sync, that sync precedes the reactor start (which is the last effect), and
after a per-transaction success signal the callback resyncs the wallet
before starting the next round via `clientStart`. -/
theorem C2_sync_once_and_resync_on_success (env : Env) (opts : Options)
    (args : List String) (cfg : RunConfig)
    (h : (mainRun env opts args).2 = some cfg) :
    (mainRun env opts args).1.countP isSync = 1 ∧
    Effect.syncWallet opts.fastsync ∈ (mainRun env opts args).1 ∧
    (mainRun env opts args).1.getLast? = some (Effect.startReactor opts.daemonport) ∧
    taker_finished opts.fastsync true true =
      [Effect.syncWallet opts.fastsync, Effect.clientStart] := by
  by_cases hs : opts.schedule = ""
  · by_cases hlen : args.length < 3
    · rw [mainRun_missing_args hs hlen] at h
      simp at h
    · have hlen' : 3 ≤ args.length := by omega
      cases hp : env.parseInt (args.getD 1 "") with
      | none =>
        rw [mainRun_single_parse_fail hs hlen' hp] at h
        simp at h
      | some amount =>
        cases hv : (env.validateAddress (args.getD 2 "")).1 with
        | false =>
          rw [mainRun_single_bad_address hs hlen' hp hv] at h
          simp at h
        | true =>
          rw [mainRun_single_path hs hlen' hp hv] at h ⊢
          obtain ⟨p, htr, hmem, hcount⟩ := mainAfterSchedule_trace h
          refine ⟨?_, ?_, ?_, rfl⟩
          · rw [htr]
            simp [List.countP_cons, List.countP_append, isSync, hcount]
          · rw [htr]
            simp [hmem]
          · show (Effect.loadConfig :: Effect.validateAddr (args.getD 2 "") ::
                (mainAfterSchedule env opts (args.getD 0 "") (amount == 0) opts.mixdepth
                  [ScheduleEntry.mk opts.mixdepth amount opts.makercount
                    (args.getD 2 "")]).1).getLast? = _
            rw [htr]
            exact getLast?_cons_cons_append _ _ _ _
  · cases hg : env.getSchedule opts.schedule with
    | none =>
      rw [mainRun_schedule_fail hs hg] at h
      simp at h
    | some sch =>
      rw [mainRun_schedule_path hs hg] at h ⊢
      obtain ⟨p, htr, hmem, hcount⟩ := mainAfterSchedule_trace h
      refine ⟨?_, ?_, ?_, rfl⟩
      · rw [htr]
        simp [List.countP_cons, List.countP_append, isSync, hcount]
      · rw [htr]
        simp [hmem]
      · show (Effect.loadConfig :: Effect.getScheduleFile opts.schedule ::
            (mainAfterSchedule env opts (args.getD 0 "")
              (sch.foldl (fun b s => if s.amount == 0 then true else b) false)
              (sch.foldl (fun m s => max m s.mixdepth) 0) sch).1).getLast? = _
        rw [htr]
        exact getLast?_cons_cons_append _ _ _ _

/-- Witness for C2: a started single-entry run at the default options in
`envSingleOk`. -/
theorem C2_witness :
    (mainRun envSingleOk optsBase ["w", "100000", "addr"]).2 = some cfgSingleOk ∧
    ((mainRun envSingleOk optsBase ["w", "100000", "addr"]).1.countP isSync = 1 ∧
    Effect.syncWallet optsBase.fastsync ∈ (mainRun envSingleOk optsBase ["w", "100000", "addr"]).1 ∧
    (mainRun envSingleOk optsBase ["w", "100000", "addr"]).1.getLast? =
      some (Effect.startReactor optsBase.daemonport) ∧
    taker_finished optsBase.fastsync true true =
      [Effect.syncWallet optsBase.fastsync, Effect.clientStart]) :=
  ⟨by decide,
   C2_sync_once_and_resync_on_success envSingleOk optsBase ["w", "100000", "addr"]
     cfgSingleOk (by decide)⟩

/-- C5: for every started run, the derived sweeping flag is true exactly
when some schedule entry has amount 0, on both construction paths. -/
theorem C5_sweep_flag_iff_zero_amount (env : Env) (opts : Options)
    (args : List String) (cfg : RunConfig)
    (h : (mainRun env opts args).2 = some cfg) :
    cfg.sweeping = cfg.schedule.any (fun s => s.amount == 0) := by
  by_cases hs : opts.schedule = ""
  · by_cases hlen : args.length < 3
    · rw [mainRun_missing_args hs hlen] at h
      simp at h
    · have hlen' : 3 ≤ args.length := by omega
      cases hp : env.parseInt (args.getD 1 "") with
      | none =>
        rw [mainRun_single_parse_fail hs hlen' hp] at h
        simp at h
      | some amount =>
        cases hv : (env.validateAddress (args.getD 2 "")).1 with
        | false =>
          rw [mainRun_single_bad_address hs hlen' hp hv] at h
          simp at h
        | true =>
          rw [mainRun_single_path hs hlen' hp hv] at h
          rw [mainAfterSchedule_some_eq h]
          simp
  · cases hg : env.getSchedule opts.schedule with
    | none =>
      rw [mainRun_schedule_fail hs hg] at h
      simp at h
    | some sch =>
      rw [mainRun_schedule_path hs hg] at h
      rw [mainAfterSchedule_some_eq h]
      dsimp only
      rw [foldl_sweep_eq_any]
      simp

theorem C5_witness :
    (mainRun envTwoEntry { optsBase with schedule := "sched.txt" } ["w"]).2 =
      some cfgTwoEntry ∧
    cfgTwoEntry.sweeping = cfgTwoEntry.schedule.any (fun s => s.amount == 0) :=
  ⟨by decide,
   C5_sweep_flag_iff_zero_amount envTwoEntry { optsBase with schedule := "sched.txt" }
     ["w"] cfgTwoEntry (by decide)⟩

/-- C6: for a started multi-entry run whose partition indices are
non-negative, the derived mixdepth is the maximum entry mixdepth (an upper
bound that is attained), and the non-RPC wallet is sized with
`max(mixdepth, amtmixdepths)`, which bounds every entry's mixdepth. -/
theorem C6_mixdepth_is_max (env : Env) (opts : Options) (args : List String)
    (cfg : RunConfig)
    (hs : opts.schedule ≠ "")
    (h : (mainRun env opts args).2 = some cfg)
    (hne : cfg.schedule ≠ [])
    (hpos : cfg.schedule.all (fun s => decide (0 ≤ s.mixdepth)) = true)
    (hrpc : opts.userpcwallet = false) :
    cfg.schedule.all (fun s => decide (s.mixdepth ≤ cfg.mixdepth)) = true ∧
    cfg.schedule.any (fun s => cfg.mixdepth == s.mixdepth) = true ∧
    cfg.wallet = WalletKind.jm cfg.walletName (max cfg.mixdepth opts.amtmixdepths)
      opts.gaplimit ∧
    cfg.schedule.all
      (fun s => decide (s.mixdepth ≤ max cfg.mixdepth opts.amtmixdepths)) = true := by
  cases hg : env.getSchedule opts.schedule with
  | none =>
    rw [mainRun_schedule_fail hs hg] at h
    simp at h
  | some sch =>
    rw [mainRun_schedule_path hs hg] at h
    have hcfg := mainAfterSchedule_some_eq h
    subst hcfg
    simp only [List.all_eq_true, List.any_eq_true, decide_eq_true_eq,
      beq_iff_eq] at hpos ⊢
    simp only [hrpc, Bool.not_false, if_pos] at hne hpos ⊢
    refine ⟨foldl_max_le_mem sch 0, ?_, ?_, ?_⟩
    · rcases foldl_max_attained sch 0 with h0 | ⟨s, hsm, hval⟩
      · match sch, hne with
        | x :: xs, _ =>
          refine ⟨x, List.mem_cons_self x xs, ?_⟩
          have h1 := foldl_max_le_mem (x :: xs) 0 x (List.mem_cons_self x xs)
          have h2 := hpos x (List.mem_cons_self x xs)
          omega
      · exact ⟨s, hsm, hval⟩
    · trivial
    · intro s hsm
      exact le_trans (foldl_max_le_mem sch 0 s hsm) (le_max_left _ _)

theorem C6_witness :
    ({ optsBase with schedule := "sched.txt" } : Options).schedule ≠ "" ∧
    (mainRun envTwoEntry { optsBase with schedule := "sched.txt" } ["w"]).2 =
      some cfgTwoEntry ∧
    (cfgTwoEntry.schedule.all
        (fun s => decide (s.mixdepth ≤ cfgTwoEntry.mixdepth)) = true ∧
      cfgTwoEntry.schedule.any
        (fun s => cfgTwoEntry.mixdepth == s.mixdepth) = true ∧
      cfgTwoEntry.wallet = WalletKind.jm cfgTwoEntry.walletName
        (max cfgTwoEntry.mixdepth
          ({ optsBase with schedule := "sched.txt" } : Options).amtmixdepths)
        ({ optsBase with schedule := "sched.txt" } : Options).gaplimit ∧
      cfgTwoEntry.schedule.all
        (fun s => decide (s.mixdepth ≤
          max cfgTwoEntry.mixdepth
            ({ optsBase with schedule := "sched.txt" } : Options).amtmixdepths)) = true) :=
  ⟨by decide, by decide,
   C6_mixdepth_is_max envTwoEntry { optsBase with schedule := "sched.txt" } ["w"]
     cfgTwoEntry (by decide) (by decide) (by decide) (by decide) (by decide)⟩

/-- A concrete environment in which the amount argument parses to `-5` and
every address validates, exposing that the single-entry path checks neither
the amount's sign nor the counterparty count. -/
def envNegAmount : Env :=
  { parseInt := fun _ => some (-5),
    validateAddress := fun _ => (true, ""),
    getSchedule := fun _ => none,
    estimateTxFee := fun _ _ => 6000,
    isRegtest := false }

/-- C4 counterexample: on the single-entry path, an entry with amount `-5`
(negative) and counterparty count `0` (not positive) is NOT rejected: the
schedule is built with exactly that entry and the run starts, refuting the
claim that such an entry is rejected before a schedule is built. -/
theorem C4_counterexample :
    (mainRun envNegAmount { optsBase with makercount := 0, txfee := 1000 }
        ["w", "-5", "addr"]).2 =
      some { schedule := [ScheduleEntry.mk 0 (-5) 0 "addr"], sweeping := false,
             mixdepth := 0, walletName := "w", policy := OrderPolicy.weighted,
             txfee := 1000, wallet := WalletKind.jm "w" 5 6 } ∧
    (-5 : Int) < 0 ∧ ¬ (0 : Int) > 0 := by
  decide

/-- C4 amended: on the single-entry path only the destination address is
validated before the schedule is built; an entry with ANY integer amount and
ANY integer counterparty count is accepted into the schedule whenever the
address validates (and the fee assert passes), and the entry is rejected
exactly when the address is invalid. -/
theorem C4_amended_only_address_validated (env : Env) (opts : Options)
    (args : List String) (amount : Int)
    (h1 : opts.schedule = "") (h2 : 3 ≤ args.length)
    (h3 : env.parseInt (args.getD 1 "") = some amount)
    (hfee : ¬ (determine_txfee opts.txfee (env.estimateTxFee 2 2)).1 < 0) :
    ((env.validateAddress (args.getD 2 "")).1 = true →
      (mainRun env opts args).2 = some
        { schedule := [ScheduleEntry.mk opts.mixdepth amount opts.makercount
            (args.getD 2 "")],
          sweeping := (amount == 0), mixdepth := opts.mixdepth,
          walletName := args.getD 0 "",
          policy := choose_orders_policy opts.pickorders opts.choosecheapest,
          txfee := (determine_txfee opts.txfee (env.estimateTxFee 2 2)).1,
          wallet := if !opts.userpcwallet then
              WalletKind.jm (args.getD 0 "") (max opts.mixdepth opts.amtmixdepths)
                opts.gaplimit
            else WalletKind.rpc (args.getD 0 "") }) ∧
    ((env.validateAddress (args.getD 2 "")).1 = false →
      (mainRun env opts args).2 = none ∧
      (mainRun env opts args).1.countP isWalletOrNetworkOp = 0) := by
  constructor
  · intro hv
    rw [mainRun_single_path h1 h2 h3 hv]
    exact mainAfterSchedule_some_of_ok hfee
  · intro hv
    rw [mainRun_single_bad_address h1 h2 h3 hv]
    exact ⟨rfl, rfl⟩

/-- Witness for the amended C4, at the counterexample input (amount `-5`,
counterparty count `0`, valid address). -/
theorem C4_amended_witness :
    ({ optsBase with makercount := 0, txfee := 1000 } : Options).schedule = "" ∧
    3 ≤ (["w", "-5", "addr"] : List String).length ∧
    envNegAmount.parseInt ((["w", "-5", "addr"] : List String).getD 1 "") = some (-5) ∧
    ¬ (determine_txfee ({ optsBase with makercount := 0, txfee := 1000 } : Options).txfee
        (envNegAmount.estimateTxFee 2 2)).1 < 0 ∧
    (((envNegAmount.validateAddress ((["w", "-5", "addr"] : List String).getD 2 "")).1 = true →
      (mainRun envNegAmount { optsBase with makercount := 0, txfee := 1000 }
          ["w", "-5", "addr"]).2 = some
        { schedule := [ScheduleEntry.mk
            ({ optsBase with makercount := 0, txfee := 1000 } : Options).mixdepth (-5)
            ({ optsBase with makercount := 0, txfee := 1000 } : Options).makercount
            ((["w", "-5", "addr"] : List String).getD 2 "")],
          sweeping := ((-5 : Int) == 0),
          mixdepth := ({ optsBase with makercount := 0, txfee := 1000 } : Options).mixdepth,
          walletName := (["w", "-5", "addr"] : List String).getD 0 "",
          policy := choose_orders_policy
            ({ optsBase with makercount := 0, txfee := 1000 } : Options).pickorders
            ({ optsBase with makercount := 0, txfee := 1000 } : Options).choosecheapest,
          txfee := (determine_txfee
            ({ optsBase with makercount := 0, txfee := 1000 } : Options).txfee
            (envNegAmount.estimateTxFee 2 2)).1,
          wallet := if !({ optsBase with makercount := 0, txfee := 1000 } : Options).userpcwallet then
              WalletKind.jm ((["w", "-5", "addr"] : List String).getD 0 "")
                (max ({ optsBase with makercount := 0, txfee := 1000 } : Options).mixdepth
                  ({ optsBase with makercount := 0, txfee := 1000 } : Options).amtmixdepths)
                ({ optsBase with makercount := 0, txfee := 1000 } : Options).gaplimit
            else WalletKind.rpc ((["w", "-5", "addr"] : List String).getD 0 "") }) ∧
    ((envNegAmount.validateAddress ((["w", "-5", "addr"] : List String).getD 2 "")).1 = false →
      (mainRun envNegAmount { optsBase with makercount := 0, txfee := 1000 }
          ["w", "-5", "addr"]).2 = none ∧
      (mainRun envNegAmount { optsBase with makercount := 0, txfee := 1000 }
          ["w", "-5", "addr"]).1.countP isWalletOrNetworkOp = 0)) :=
  ⟨rfl, by decide, rfl, by decide,
   C4_amended_only_address_validated envNegAmount
     { optsBase with makercount := 0, txfee := 1000 } ["w", "-5", "addr"] (-5)
     rfl (by decide) rfl (by decide)⟩

/-- C10 counterexample: for the supplied fee override `-2` (an integer the
option parser accepts), the fee is left unchanged and
`assert options.txfee >= 0` fails; the claim that the assert never fails for
every supplied integer is refuted. -/
theorem C10_counterexample :
    ({ optsBase with txfee := -2 } : Options).txfee = -2 ∧
    Effect.assertFail ∈
      (mainRun envSingleOk { optsBase with txfee := -2 } ["w", "100000", "addr"]).1 ∧
    (mainRun envSingleOk { optsBase with txfee := -2 } ["w", "100000", "addr"]).2 = none := by
  decide

/-- C10 amended: given a non-negative estimator, the fee assert holds
exactly for supplied fee overrides that are non-negative or equal to the
sentinel `-1`; every other (negative, non-sentinel) supplied value fails the
assert. -/
theorem C10_amended_assert_iff (env : Env) (opts : Options) (w : String)
    (sw : Bool) (m : Int) (sch : List ScheduleEntry)
    (h : 0 ≤ env.estimateTxFee 2 2) :
    ((0 ≤ opts.txfee ∨ opts.txfee = -1) →
        Effect.assertFail ∉ (mainAfterSchedule env opts w sw m sch).1) ∧
    (opts.txfee < 0 → opts.txfee ≠ -1 →
        Effect.assertFail ∈ (mainAfterSchedule env opts w sw m sch).1) := by
  constructor
  · intro hok
    apply assertFail_not_mem_of_ok
    by_cases hm : opts.txfee = -1
    · rw [determine_txfee_fst_of_sentinel hm h]
      omega
    · rw [determine_txfee_fst_of_explicit _ hm]
      rcases hok with h0 | h1
      · omega
      · exact absurd h1 hm
  · intro hneg hm
    apply assertFail_mem_of_bad
    rw [determine_txfee_fst_of_explicit _ hm]
    exact hneg

/-- Witness for the amended C10 at the default options (sentinel `-1`). -/
theorem C10_amended_witness :
    (0 : Int) ≤ envSingleOk.estimateTxFee 2 2 ∧
    (((0 ≤ optsBase.txfee ∨ optsBase.txfee = -1) →
        Effect.assertFail ∉ (mainAfterSchedule envSingleOk optsBase "w" false 0 []).1) ∧
    (optsBase.txfee < 0 → optsBase.txfee ≠ -1 →
        Effect.assertFail ∈ (mainAfterSchedule envSingleOk optsBase "w" false 0 []).1)) :=
  ⟨by decide, C10_amended_assert_iff envSingleOk optsBase "w" false 0 [] (by decide)⟩

end SendPayment
